import Mathlib

/-!
Verification of the Nexus desktop client shell
(`src/client/src-tauri/src/lib.rs`): the menu command dispatch and
window-state control subsystem.

The zoom level in the source is an `f64` mutated by `+ 0.1` / `- 0.1`
with `min`/`max` clamping.  We embed IEEE-754 binary64 arithmetic
exactly over `ℚ`: a binary64 operation computes the exact rational
result and rounds it to the nearest representable value (round to
nearest, ties to even).  The rounding function below implements this
for the normal range, which covers every value this program produces.
-/

namespace Nexus

/-- Round a rational to the nearest integer, ties going to the even
integer (the IEEE-754 default tie rule applied at integer granularity). -/
def rne (x : ℚ) : ℤ :=
  let f := Rat.floor x
  let r := x - f
  if r < 1/2 then f
  else if 1/2 < r then f + 1
  else if f % 2 = 0 then f else f + 1

/-- Floor of the base-2 logarithm of `n`, by fuel-based structural
recursion; correct whenever `1 ≤ n` and `n < 2 ^ fuel`. -/
def nlog2 : ℕ → ℕ → ℕ
  | 0, _ => 0
  | fuel + 1, n => if 2 ≤ n then nlog2 fuel (n / 2) + 1 else 0

/-- The rational number `2 ^ k` for an integer exponent `k`. -/
def qpow2 (k : ℤ) : ℚ :=
  if 0 ≤ k then ((2 ^ k.toNat : ℕ) : ℚ) else Rat.divInt 1 ((2 ^ (-k).toNat : ℕ) : ℤ)

/-- Floor of the base-2 logarithm of a positive rational. -/
def floorLog2 (q : ℚ) : ℤ :=
  let a : ℤ := nlog2 q.num.toNat q.num.toNat
  let b : ℤ := nlog2 q.den q.den
  if qpow2 (a - b) ≤ q then a - b else a - b - 1

/-- Round a positive rational to the nearest IEEE-754 binary64 value
(round to nearest, ties to even), assuming the result lies in the
normal range: the significand is forced to 53 bits by scaling the
input into `[2^52, 2^53)`. -/
def roundPos (q : ℚ) : ℚ :=
  (rne (q * qpow2 (52 - floorLog2 q)) : ℚ) * qpow2 (-(52 - floorLog2 q))

/-- Round a rational to the nearest binary64 value (normal range). -/
def roundF64 (q : ℚ) : ℚ :=
  if q < 0 then -roundPos (-q) else if q = 0 then 0 else roundPos q

/-- binary64 addition: exact sum, then correct rounding.  This is the
meaning of `+` on `f64` values in the source. -/
def fadd (a b : ℚ) : ℚ := roundF64 (a + b)

/-- binary64 subtraction: exact difference, then correct rounding.
This is the meaning of `-` on `f64` values in the source. -/
def fsub (a b : ℚ) : ℚ := roundF64 (a - b)

/-- The binary64 value denoted by the source literal `0.1`
(`3602879701896397 / 2 ^ 55`); `3.0`, `0.5` and `1.0` are exactly
representable and denote themselves. -/
def c01 : ℚ := roundF64 (1/10)

/-!
The menu event dispatcher (`app.on_menu_event` closure, lib.rs lines
130–170).  The window operations the dispatcher attempts are recorded
as an explicit list of actions; their success or failure is part of
the environment, and the source discards every result (`let _ = ...`).
-/

/-- A window operation attempted by the dispatcher. -/
inductive WAction where
  | evalJs (script : String)
  | openDevtools
  | closeDevtools
  | setZoom (level : ℚ)
  | setFullscreen (flag : Bool)
deriving DecidableEq

/-- The host-window environment a single dispatch runs against:
whether `get_webview_window("main")` resolves, what
`is_devtools_open()` returns, what `is_fullscreen()` returns
(`none` models an `Err` result), and whether `set_zoom` would
succeed (the source discards this result). -/
structure WinEnv where
  winPresent : Bool
  devtoolsOpen : Bool
  isFullscreen : Option Bool
  setZoomOk : Bool
deriving DecidableEq

/-- One invocation of the `on_menu_event` closure: given the
environment, the fired menu identity and the stored zoom level, it
returns the new stored zoom level and the window actions attempted,
in order.  When the main window cannot be resolved the event is
dropped: no action, no state change, no error. -/
def onMenuEvent (env : WinEnv) (id : String) (zoom : ℚ) : ℚ × List WAction :=
  if env.winPresent then
    match id with
    | "reload" => (zoom, [.evalJs "window.location.reload()"])
    | "toggle_devtools" =>
        (zoom, [if env.devtoolsOpen then .closeDevtools else .openDevtools])
    | "zoom_in" =>
        let level := min (fadd zoom c01) 3
        (level, [.setZoom level])
    | "zoom_out" =>
        let level := max (fsub zoom c01) (1/2)
        (level, [.setZoom level])
    | "zoom_reset" => (1, [.setZoom 1])
    | "toggle_fullscreen" =>
        (zoom, [.setFullscreen (!(env.isFullscreen.getD false))])
    | "check_updates" =>
        (zoom, [.evalJs "window.__NEXUS_CHECK_UPDATES && window.__NEXUS_CHECK_UPDATES()"])
    | _ => (zoom, [])
  else (zoom, [])

/-- The stored zoom level after a sequence of dispatched menu events,
each paired with the environment it runs against; the store is
created with `1.0` at startup. -/
def applyEvents (evs : List (WinEnv × String)) (zoom : ℚ) : ℚ :=
  evs.foldl (fun z ev => (onMenuEvent ev.1 ev.2 z).1) zoom

/-- A healthy environment: window resolvable, devtools closed, window
readable and not fullscreen, `set_zoom` succeeding. -/
def envA : WinEnv :=
  { winPresent := true, devtoolsOpen := false,
    isFullscreen := some false, setZoomOk := true }

/-!
The menu tree built in `setup` (lib.rs lines 44–124), modelled
declaratively: custom items carry their identity, label and optional
accelerator; built-in items carry only a tag.
-/

/-- An entry of a submenu. -/
inductive MenuEntry where
  | custom (id : String) (label : String) (accel : Option String)
  | separator
  | builtin (tag : String)
deriving DecidableEq

/-- The identity of a custom entry, `none` for the rest. -/
def MenuEntry.customId : MenuEntry → Option String
  | .custom i _ _ => some i
  | _ => none

/-- The label of a custom entry, `none` for the rest. -/
def MenuEntry.customLabel : MenuEntry → Option String
  | .custom _ l _ => some l
  | _ => none

/-- Whether an entry is a custom item lacking an accelerator. -/
def MenuEntry.customNoAccel : MenuEntry → Bool
  | .custom _ _ a => !a.isSome
  | _ => false

def reload_item : MenuEntry := .custom "reload" "Reload" (some "CmdOrCtrl+R")

def devtools_item : MenuEntry :=
  .custom "toggle_devtools" "Toggle Developer Tools" (some "CmdOrCtrl+Shift+I")

def zoom_in_item : MenuEntry := .custom "zoom_in" "Zoom In" (some "CmdOrCtrl+=")

def zoom_out_item : MenuEntry := .custom "zoom_out" "Zoom Out" (some "CmdOrCtrl+-")

def zoom_reset_item : MenuEntry := .custom "zoom_reset" "Reset Zoom" (some "CmdOrCtrl+0")

def fullscreen_item : MenuEntry :=
  .custom "toggle_fullscreen" "Toggle Fullscreen" (some "F11")

def check_updates_item : MenuEntry :=
  .custom "check_updates" "Check for Updates..." none

/-- The File submenu: a single built-in quit command. -/
def file_menu : List MenuEntry := [.builtin "quit"]

/-- The Edit submenu: built-in editing commands with two separators. -/
def edit_menu : List MenuEntry :=
  [.builtin "undo", .builtin "redo", .separator, .builtin "cut",
   .builtin "copy", .builtin "paste", .separator, .builtin "select_all"]

/-- The View submenu (lib.rs lines 92–101): the six custom items with
a separator after the reload/devtools pair and one before the
fullscreen item. -/
def view_menu : List MenuEntry :=
  [reload_item, devtools_item, .separator, zoom_in_item, zoom_out_item,
   zoom_reset_item, .separator, fullscreen_item]

/-- The Help submenu: the update-check item, a separator, the built-in
about entry. -/
def help_menu : List MenuEntry :=
  [check_updates_item, .separator, .builtin "about"]

/-!
The Linux permission bootstrap (lib.rs lines 21–40).  `unwrap()` on a
missing main window panics; the `?` on `with_webview` propagates its
error out of `setup`; both abort startup and are modelled as `none`.
A missing settings object merely skips the three capability setters
(`if let Some(settings) = ...`); the permission-request handler is
connected unconditionally inside the closure.
-/

/-- Environment of the bootstrap: whether `get_webview_window("main")`
resolves, whether `WebViewExt::settings` returns the settings object,
and whether `with_webview` itself succeeds. -/
structure BootEnv where
  windowPresent : Bool
  settingsPresent : Bool
  withWebviewOk : Bool
deriving DecidableEq

/-- Observable effects of a completed (non-fatal) bootstrap. -/
structure BootEffects where
  mediaStreamEnabled : Bool
  mediasourceEnabled : Bool
  playbackNoGesture : Bool
  permissionHandlerInstalled : Bool
deriving DecidableEq

/-- The Linux permission bootstrap; `none` is a fatal startup error. -/
def linuxPermissionBootstrap (env : BootEnv) : Option BootEffects :=
  if env.windowPresent then
    if env.withWebviewOk then
      some { mediaStreamEnabled := env.settingsPresent,
             mediasourceEnabled := env.settingsPresent,
             playbackNoGesture := env.settingsPresent,
             permissionHandlerInstalled := true }
    else none
  else none

end Nexus

namespace Nexus

theorem fadd_def (a b : ℚ) : fadd a b = roundF64 (a + b) := rfl

theorem fsub_def (a b : ℚ) : fsub a b = roundF64 (a - b) := rfl

/-- Evaluation scheme for `roundF64` at a positive argument, splitting
the computation into independently checkable facts. -/
theorem roundF64_eval (x d : ℚ) (hd : x = d) (h0 : ¬ d < 0) (h1 : ¬ d = 0)
    (e k : ℤ) (he : floorLog2 d = e) (hk : 52 - e = k) (s : ℚ)
    (hs : d * qpow2 k = s) (m : ℤ) (hm : rne s = m) (r : ℚ)
    (hr : (m : ℚ) * qpow2 (-k) = r) : roundF64 x = r := by
  subst hd
  rw [roundF64, if_neg h0, if_neg h1, roundPos, he, hk, hs, hm, hr]

theorem ratFloor_le (x : ℚ) : (Rat.floor x : ℚ) ≤ x := Rat.le_floor.mp le_rfl

theorem lt_ratFloor_add_one (x : ℚ) : x < Rat.floor x + 1 := by
  by_contra hcon
  push_neg at hcon
  have h2 : ((Rat.floor x + 1 : ℤ) : ℚ) ≤ x := by push_cast; linarith
  have := Rat.le_floor.mpr h2
  omega

/-- `rne` rounds to within a half of its input. -/
theorem rne_bounds (x : ℚ) : x - 1/2 ≤ (rne x : ℚ) ∧ (rne x : ℚ) ≤ x + 1/2 := by
  have hle := ratFloor_le x
  have hlt := lt_ratFloor_add_one x
  simp only [rne]
  split
  · rename_i hc
    constructor
    · linarith
    · linarith
  · rename_i hc
    push_neg at hc
    split
    · rename_i hc2
      push_cast
      constructor
      · linarith
      · linarith
    · rename_i hc2
      push_neg at hc2
      have htie : x - (Rat.floor x : ℚ) = 1/2 := le_antisymm hc2 hc
      split
      · constructor
        · linarith
        · linarith
      · push_cast
        constructor
        · linarith
        · linarith

theorem nlog2_spec : ∀ fuel n, 1 ≤ n → n < 2 ^ fuel →
    2 ^ nlog2 fuel n ≤ n ∧ n < 2 ^ (nlog2 fuel n + 1) := by
  intro fuel
  induction fuel with
  | zero =>
    intro n h1 h2
    simp only [pow_zero] at h2
    omega
  | succ f ih =>
    intro n h1 h2
    by_cases h : 2 ≤ n
    · have hn2 : 1 ≤ n / 2 := by omega
      have hlt : n / 2 < 2 ^ f := by
        have hmul : n < 2 ^ f * 2 := by
          calc n < 2 ^ (f + 1) := h2
          _ = 2 ^ f * 2 := by ring
        omega
      obtain ⟨ha, hb⟩ := ih (n / 2) hn2 hlt
      have hrw : nlog2 (f + 1) n = nlog2 f (n / 2) + 1 := by
        simp only [nlog2, if_pos h]
      rw [hrw]
      constructor
      · have hpow : 2 ^ (nlog2 f (n / 2) + 1) = 2 ^ nlog2 f (n / 2) * 2 := by ring
        rw [hpow]
        omega
      · have hpow : 2 ^ (nlog2 f (n / 2) + 1 + 1) = 2 ^ (nlog2 f (n / 2) + 1) * 2 := by
          ring
        rw [hpow]
        omega
    · have hn : n = 1 := by omega
      subst hn
      simp only [nlog2, if_neg h]
      norm_num

theorem cast_two_pow (n : ℕ) : ((2 ^ n : ℕ) : ℚ) = (2 : ℚ) ^ (n : ℤ) := by
  rw [zpow_natCast]
  push_cast
  rfl

theorem qpow2_eq_zpow (k : ℤ) : qpow2 k = (2 : ℚ) ^ k := by
  rw [qpow2]
  split
  · rename_i h
    rw [cast_two_pow, Int.toNat_of_nonneg h]
  · rename_i h
    push_neg at h
    rw [Rat.divInt_eq_div]
    push_cast
    rw [one_div, ← zpow_natCast (2 : ℚ) (-k).toNat,
      Int.toNat_of_nonneg (by omega : (0:ℤ) ≤ -k), ← zpow_neg, neg_neg]

theorem qpow2_pos (k : ℤ) : 0 < qpow2 k := by
  rw [qpow2_eq_zpow]
  positivity

theorem qpow2_le_qpow2 {j k : ℤ} (h : j ≤ k) : qpow2 j ≤ qpow2 k := by
  rw [qpow2_eq_zpow, qpow2_eq_zpow]
  exact zpow_le_zpow_right₀ one_le_two h

theorem qpow2_add (j k : ℤ) : qpow2 (j + k) = qpow2 j * qpow2 k := by
  rw [qpow2_eq_zpow, qpow2_eq_zpow, qpow2_eq_zpow,
    zpow_add₀ (by norm_num : (2:ℚ) ≠ 0)]

theorem qpow2_mul_neg (k : ℤ) : qpow2 k * qpow2 (-k) = 1 := by
  rw [← qpow2_add, show k + -k = 0 from by ring, qpow2_eq_zpow, zpow_zero]

theorem half_mul_qpow2 (k : ℤ) : 1/2 * qpow2 k = qpow2 (k - 1) := by
  have h12 : (1/2 : ℚ) = qpow2 (-1) := by
    rw [qpow2_eq_zpow]
    norm_num
  rw [h12, ← qpow2_add, show -1 + k = k - 1 from by ring]

/-- `floorLog2` is correct on positive rationals:
`2 ^ floorLog2 q ≤ q < 2 ^ (floorLog2 q + 1)`. -/
theorem floorLog2_spec (q : ℚ) (hq : 0 < q) :
    qpow2 (floorLog2 q) ≤ q ∧ q < qpow2 (floorLog2 q + 1) := by
  have hnum : 0 < q.num := Rat.num_pos.mpr hq
  simp only [floorLog2]
  set N := q.num.toNat with hN
  set D := q.den with hD
  set a := nlog2 N N with hA
  set b := nlog2 D D with hB
  have hN1 : 1 ≤ N := by omega
  have hNq : ((N : ℤ) : ℚ) = (q.num : ℚ) := by
    rw [Int.toNat_of_nonneg hnum.le]
  have hD1 : 1 ≤ D := q.den_pos
  obtain ⟨ha1, ha2⟩ := nlog2_spec N N hN1 (Nat.lt_two_pow N)
  obtain ⟨hb1, hb2⟩ := nlog2_spec D D hD1 (Nat.lt_two_pow D)
  have hDq : (0:ℚ) < (D : ℚ) := by
    exact_mod_cast Nat.pos_of_ne_zero (by omega)
  have hq_eq : (N : ℚ) / (D : ℚ) = q := by
    have hcast : (N : ℚ) = (q.num : ℚ) := by push_cast at hNq ⊢; exact hNq
    rw [hcast, hD, Rat.num_div_den]
  have hcast_a : (N : ℚ) < (2:ℚ) ^ ((a : ℤ) + 1) := by
    have h1 : (N : ℚ) < (2:ℚ) ^ (a + 1 : ℕ) := by exact_mod_cast ha2
    rw [show ((a : ℤ) + 1) = ((a + 1 : ℕ) : ℤ) from by push_cast; ring,
      zpow_natCast]
    exact h1
  have hcast_a1 : (2:ℚ) ^ ((a : ℤ)) ≤ (N : ℚ) := by
    have h1 : (2:ℚ) ^ (a : ℕ) ≤ (N : ℚ) := by exact_mod_cast ha1
    rw [zpow_natCast]
    exact h1
  have hcast_b : (D : ℚ) < (2:ℚ) ^ ((b : ℤ) + 1) := by
    have h1 : (D : ℚ) < (2:ℚ) ^ (b + 1 : ℕ) := by exact_mod_cast hb2
    rw [show ((b : ℤ) + 1) = ((b + 1 : ℕ) : ℤ) from by push_cast; ring,
      zpow_natCast]
    exact h1
  have hcast_b1 : (2:ℚ) ^ ((b : ℤ)) ≤ (D : ℚ) := by
    have h1 : (2:ℚ) ^ (b : ℕ) ≤ (D : ℚ) := by exact_mod_cast hb1
    rw [zpow_natCast]
    exact h1
  have hub : q < (2:ℚ) ^ ((a : ℤ) + 1 - b) := by
    rw [← hq_eq, div_lt_iff₀ hDq]
    calc (N : ℚ) < (2:ℚ) ^ ((a : ℤ) + 1) := hcast_a
    _ = (2:ℚ) ^ ((a : ℤ) + 1 - b) * (2:ℚ) ^ ((b : ℤ)) := by
        rw [← zpow_add₀ (by norm_num : (2:ℚ) ≠ 0),
          show (a : ℤ) + 1 - b + b = (a : ℤ) + 1 from by ring]
    _ ≤ (2:ℚ) ^ ((a : ℤ) + 1 - b) * D := by
        apply mul_le_mul_of_nonneg_left hcast_b1
        positivity
  have hlb : (2:ℚ) ^ ((a : ℤ) - b - 1) < q := by
    rw [← hq_eq, lt_div_iff₀ hDq]
    calc (2:ℚ) ^ ((a : ℤ) - b - 1) * D
        < (2:ℚ) ^ ((a : ℤ) - b - 1) * (2:ℚ) ^ ((b : ℤ) + 1) := by
          apply mul_lt_mul_of_pos_left hcast_b
          positivity
    _ = (2:ℚ) ^ ((a : ℤ)) := by
        rw [← zpow_add₀ (by norm_num : (2:ℚ) ≠ 0),
          show (a : ℤ) - b - 1 + (b + 1) = (a : ℤ) from by ring]
    _ ≤ (N : ℚ) := hcast_a1
  split
  · rename_i hcase
    refine ⟨hcase, ?_⟩
    rw [qpow2_eq_zpow, show (a : ℤ) - b + 1 = (a : ℤ) + 1 - b from by ring]
    exact hub
  · rename_i hcase
    push_neg at hcase
    constructor
    · rw [qpow2_eq_zpow]
      exact hlb.le
    · rw [show (a : ℤ) - b - 1 + 1 = (a : ℤ) - b from by ring]
      exact hcase

/-- The rounding error of `roundPos` is at most half an ulp:
`2 ^ (floorLog2 q - 53)`. -/
theorem roundPos_bounds (q : ℚ) (_hq : 0 < q) :
    q - qpow2 (floorLog2 q - 53) ≤ roundPos q ∧
    roundPos q ≤ q + qpow2 (floorLog2 q - 53) := by
  obtain ⟨h1, h2⟩ := rne_bounds (q * qpow2 (52 - floorLog2 q))
  have hp : (0:ℚ) < qpow2 (-(52 - floorLog2 q)) := qpow2_pos _
  have hinv : qpow2 (52 - floorLog2 q) * qpow2 (-(52 - floorLog2 q)) = 1 :=
    qpow2_mul_neg _
  have hhalf : 1/2 * qpow2 (-(52 - floorLog2 q)) = qpow2 (floorLog2 q - 53) := by
    rw [half_mul_qpow2]
    congr 1
    ring
  rw [roundPos]
  constructor
  · have hmul := mul_le_mul_of_nonneg_right h1 hp.le
    have hexp : (q * qpow2 (52 - floorLog2 q) - 1/2) * qpow2 (-(52 - floorLog2 q))
        = q - qpow2 (floorLog2 q - 53) := by
      rw [sub_mul, mul_assoc, hinv, mul_one, hhalf]
    rw [hexp] at hmul
    exact hmul
  · have hmul := mul_le_mul_of_nonneg_right h2 hp.le
    have hexp : (q * qpow2 (52 - floorLog2 q) + 1/2) * qpow2 (-(52 - floorLog2 q))
        = q + qpow2 (floorLog2 q - 53) := by
      rw [add_mul, mul_assoc, hinv, mul_one, hhalf]
    rw [hexp] at hmul
    exact hmul

theorem floorLog2_le_one (q : ℚ) (h0 : 0 < q) (h4 : q < 4) : floorLog2 q ≤ 1 := by
  by_contra hcon
  push_neg at hcon
  have h1 := (floorLog2_spec q h0).1
  have h2 : qpow2 2 ≤ qpow2 (floorLog2 q) := qpow2_le_qpow2 (by omega)
  have h3 : qpow2 2 = 4 := by
    rw [qpow2_eq_zpow]
    norm_num
  linarith

/-- On `(0, 4)` a binary64 rounding moves its input by at most `2^-52`. -/
theorem roundF64_bounds (q : ℚ) (h0 : 0 < q) (h4 : q < 4) :
    q - qpow2 (-52) ≤ roundF64 q ∧ roundF64 q ≤ q + qpow2 (-52) := by
  have he : floorLog2 q - 53 ≤ -52 := by
    have := floorLog2_le_one q h0 h4
    omega
  have hb := roundPos_bounds q h0
  have hmono : qpow2 (floorLog2 q - 53) ≤ qpow2 (-52) := qpow2_le_qpow2 he
  rw [roundF64, if_neg (not_lt.mpr h0.le), if_neg (ne_of_gt h0)]
  constructor
  · linarith [hb.1]
  · linarith [hb.2]


set_option maxRecDepth 2000

theorem qpow2_p51 : qpow2 (51) = 2251799813685248 := by
  rw [qpow2_eq_zpow]
  norm_num

theorem qpow2_n51 : qpow2 (-51) = 1 / 2251799813685248 := by
  rw [qpow2_eq_zpow]
  norm_num
theorem qpow2_p52 : qpow2 (52) = 4503599627370496 := by
  rw [qpow2_eq_zpow]
  norm_num

theorem qpow2_n52 : qpow2 (-52) = 1 / 4503599627370496 := by
  rw [qpow2_eq_zpow]
  norm_num
theorem qpow2_p53 : qpow2 (53) = 9007199254740992 := by
  rw [qpow2_eq_zpow]
  norm_num

theorem qpow2_n53 : qpow2 (-53) = 1 / 9007199254740992 := by
  rw [qpow2_eq_zpow]
  norm_num
theorem qpow2_p54 : qpow2 (54) = 18014398509481984 := by
  rw [qpow2_eq_zpow]
  norm_num

theorem qpow2_n54 : qpow2 (-54) = 1 / 18014398509481984 := by
  rw [qpow2_eq_zpow]
  norm_num
theorem qpow2_p56 : qpow2 (56) = 72057594037927936 := by
  rw [qpow2_eq_zpow]
  norm_num

theorem qpow2_n56 : qpow2 (-56) = 1 / 72057594037927936 := by
  rw [qpow2_eq_zpow]
  norm_num

theorem c01_eq : c01 = 3602879701896397 / 36028797018963968 := by
  rw [show c01 = roundF64 (1/10) from rfl]
  exact roundF64_eval _ (1/10) rfl (by norm_num) (by norm_num)
    (-4) 56 (by with_unfolding_all decide) (by norm_num)
    (36028797018963968 / 5) (by rw [qpow2_p56]; norm_num) 7205759403792794
    (by with_unfolding_all decide) _ (by rw [qpow2_n56]; norm_num)

theorem onMenuEvent_out_fst (z : ℚ) :
    (onMenuEvent envA "zoom_out" z).1 = max (fsub z c01) (1/2) := rfl

theorem onMenuEvent_in_fst (z : ℚ) :
    (onMenuEvent envA "zoom_in" z).1 = min (fadd z c01) 3 := rfl

theorem onMenuEvent_reset_fst (z : ℚ) :
    (onMenuEvent envA "zoom_reset" z).1 = 1 := rfl
theorem fsub_step0 : fsub (1) c01 = 8106479329266893 / 9007199254740992 := by
  rw [fsub_def, c01_eq]
  exact roundF64_eval _ (32425917317067571 / 36028797018963968) (by norm_num) (by norm_num) (by norm_num)
    (-1) 53 (by with_unfolding_all decide) (by norm_num)
    (32425917317067571 / 4) (by rw [qpow2_p53]; norm_num) 8106479329266893
    (by with_unfolding_all decide) _ (by rw [qpow2_n53]; norm_num)
theorem stepOut0 : (onMenuEvent envA "zoom_out" (1)).1 = 8106479329266893 / 9007199254740992 := by
  rw [onMenuEvent_out_fst, fsub_step0, max_eq_left (by norm_num)]
theorem fsub_step1 : fsub (8106479329266893 / 9007199254740992) c01 = 3602879701896397 / 4503599627370496 := by
  rw [fsub_def, c01_eq]
  exact roundF64_eval _ (28823037615171175 / 36028797018963968) (by norm_num) (by norm_num) (by norm_num)
    (-1) 53 (by with_unfolding_all decide) (by norm_num)
    (28823037615171175 / 4) (by rw [qpow2_p53]; norm_num) 7205759403792794
    (by with_unfolding_all decide) _ (by rw [qpow2_n53]; norm_num)
theorem stepOut1 : (onMenuEvent envA "zoom_out" (8106479329266893 / 9007199254740992)).1 = 3602879701896397 / 4503599627370496 := by
  rw [onMenuEvent_out_fst, fsub_step1, max_eq_left (by norm_num)]
theorem fsub_step2 : fsub (3602879701896397 / 4503599627370496) c01 = 6305039478318695 / 9007199254740992 := by
  rw [fsub_def, c01_eq]
  exact roundF64_eval _ (25220157913274779 / 36028797018963968) (by norm_num) (by norm_num) (by norm_num)
    (-1) 53 (by with_unfolding_all decide) (by norm_num)
    (25220157913274779 / 4) (by rw [qpow2_p53]; norm_num) 6305039478318695
    (by with_unfolding_all decide) _ (by rw [qpow2_n53]; norm_num)
theorem stepOut2 : (onMenuEvent envA "zoom_out" (3602879701896397 / 4503599627370496)).1 = 6305039478318695 / 9007199254740992 := by
  rw [onMenuEvent_out_fst, fsub_step2, max_eq_left (by norm_num)]
theorem fsub_step3 : fsub (6305039478318695 / 9007199254740992) c01 = 1351079888211149 / 2251799813685248 := by
  rw [fsub_def, c01_eq]
  exact roundF64_eval _ (21617278211378383 / 36028797018963968) (by norm_num) (by norm_num) (by norm_num)
    (-1) 53 (by with_unfolding_all decide) (by norm_num)
    (21617278211378383 / 4) (by rw [qpow2_p53]; norm_num) 5404319552844596
    (by with_unfolding_all decide) _ (by rw [qpow2_n53]; norm_num)
theorem stepOut3 : (onMenuEvent envA "zoom_out" (6305039478318695 / 9007199254740992)).1 = 1351079888211149 / 2251799813685248 := by
  rw [onMenuEvent_out_fst, fsub_step3, max_eq_left (by norm_num)]
theorem fsub_step4 : fsub (1351079888211149 / 2251799813685248) c01 = 4503599627370497 / 9007199254740992 := by
  rw [fsub_def, c01_eq]
  exact roundF64_eval _ (18014398509481987 / 36028797018963968) (by norm_num) (by norm_num) (by norm_num)
    (-1) 53 (by with_unfolding_all decide) (by norm_num)
    (18014398509481987 / 4) (by rw [qpow2_p53]; norm_num) 4503599627370497
    (by with_unfolding_all decide) _ (by rw [qpow2_n53]; norm_num)
theorem stepOut4 : (onMenuEvent envA "zoom_out" (1351079888211149 / 2251799813685248)).1 = 4503599627370497 / 9007199254740992 := by
  rw [onMenuEvent_out_fst, fsub_step4, max_eq_left (by norm_num)]
theorem fsub_step5 : fsub (4503599627370497 / 9007199254740992) c01 = 1801439850948199 / 4503599627370496 := by
  rw [fsub_def, c01_eq]
  exact roundF64_eval _ (14411518807585591 / 36028797018963968) (by norm_num) (by norm_num) (by norm_num)
    (-2) 54 (by with_unfolding_all decide) (by norm_num)
    (14411518807585591 / 2) (by rw [qpow2_p54]; norm_num) 7205759403792796
    (by with_unfolding_all decide) _ (by rw [qpow2_n54]; norm_num)
theorem stepOut5 : (onMenuEvent envA "zoom_out" (4503599627370497 / 9007199254740992)).1 = 1 / 2 := by
  rw [onMenuEvent_out_fst, fsub_step5, max_eq_right (by norm_num)]
theorem fadd_step0 : fadd (1) c01 = 2476979795053773 / 2251799813685248 := by
  rw [fadd_def, c01_eq]
  exact roundF64_eval _ (39631676720860365 / 36028797018963968) (by norm_num) (by norm_num) (by norm_num)
    (0) 52 (by with_unfolding_all decide) (by norm_num)
    (39631676720860365 / 8) (by rw [qpow2_p52]; norm_num) 4953959590107546
    (by with_unfolding_all decide) _ (by rw [qpow2_n52]; norm_num)
theorem stepIn0 : (onMenuEvent envA "zoom_in" (1)).1 = 2476979795053773 / 2251799813685248 := by
  rw [onMenuEvent_in_fst, fadd_step0, min_eq_left (by norm_num)]
theorem fadd_step1 : fadd (2476979795053773 / 2251799813685248) c01 = 1351079888211149 / 1125899906842624 := by
  rw [fadd_def, c01_eq]
  exact roundF64_eval _ (43234556422756765 / 36028797018963968) (by norm_num) (by norm_num) (by norm_num)
    (0) 52 (by with_unfolding_all decide) (by norm_num)
    (43234556422756765 / 8) (by rw [qpow2_p52]; norm_num) 5404319552844596
    (by with_unfolding_all decide) _ (by rw [qpow2_n52]; norm_num)
theorem stepIn1 : (onMenuEvent envA "zoom_in" (2476979795053773 / 2251799813685248)).1 = 1351079888211149 / 1125899906842624 := by
  rw [onMenuEvent_in_fst, fadd_step1, min_eq_left (by norm_num)]
theorem fadd_step2 : fadd (1351079888211149 / 1125899906842624) c01 = 2927339757790823 / 2251799813685248 := by
  rw [fadd_def, c01_eq]
  exact roundF64_eval _ (46837436124653165 / 36028797018963968) (by norm_num) (by norm_num) (by norm_num)
    (0) 52 (by with_unfolding_all decide) (by norm_num)
    (46837436124653165 / 8) (by rw [qpow2_p52]; norm_num) 5854679515581646
    (by with_unfolding_all decide) _ (by rw [qpow2_n52]; norm_num)
theorem stepIn2 : (onMenuEvent envA "zoom_in" (1351079888211149 / 1125899906842624)).1 = 2927339757790823 / 2251799813685248 := by
  rw [onMenuEvent_in_fst, fadd_step2, min_eq_left (by norm_num)]
theorem fadd_step3 : fadd (2927339757790823 / 2251799813685248) c01 = 788129934789837 / 562949953421312 := by
  rw [fadd_def, c01_eq]
  exact roundF64_eval _ (50440315826549565 / 36028797018963968) (by norm_num) (by norm_num) (by norm_num)
    (0) 52 (by with_unfolding_all decide) (by norm_num)
    (50440315826549565 / 8) (by rw [qpow2_p52]; norm_num) 6305039478318696
    (by with_unfolding_all decide) _ (by rw [qpow2_n52]; norm_num)
theorem stepIn3 : (onMenuEvent envA "zoom_in" (2927339757790823 / 2251799813685248)).1 = 788129934789837 / 562949953421312 := by
  rw [onMenuEvent_in_fst, fadd_step3, min_eq_left (by norm_num)]
theorem fadd_step4 : fadd (788129934789837 / 562949953421312) c01 = 3377699720527873 / 2251799813685248 := by
  rw [fadd_def, c01_eq]
  exact roundF64_eval _ (54043195528445965 / 36028797018963968) (by norm_num) (by norm_num) (by norm_num)
    (0) 52 (by with_unfolding_all decide) (by norm_num)
    (54043195528445965 / 8) (by rw [qpow2_p52]; norm_num) 6755399441055746
    (by with_unfolding_all decide) _ (by rw [qpow2_n52]; norm_num)
theorem stepIn4 : (onMenuEvent envA "zoom_in" (788129934789837 / 562949953421312)).1 = 3377699720527873 / 2251799813685248 := by
  rw [onMenuEvent_in_fst, fadd_step4, min_eq_left (by norm_num)]
theorem fadd_step5 : fadd (3377699720527873 / 2251799813685248) c01 = 1801439850948199 / 1125899906842624 := by
  rw [fadd_def, c01_eq]
  exact roundF64_eval _ (57646075230342365 / 36028797018963968) (by norm_num) (by norm_num) (by norm_num)
    (0) 52 (by with_unfolding_all decide) (by norm_num)
    (57646075230342365 / 8) (by rw [qpow2_p52]; norm_num) 7205759403792796
    (by with_unfolding_all decide) _ (by rw [qpow2_n52]; norm_num)
theorem stepIn5 : (onMenuEvent envA "zoom_in" (3377699720527873 / 2251799813685248)).1 = 1801439850948199 / 1125899906842624 := by
  rw [onMenuEvent_in_fst, fadd_step5, min_eq_left (by norm_num)]
theorem fadd_step6 : fadd (1801439850948199 / 1125899906842624) c01 = 3828059683264923 / 2251799813685248 := by
  rw [fadd_def, c01_eq]
  exact roundF64_eval _ (61248954932238765 / 36028797018963968) (by norm_num) (by norm_num) (by norm_num)
    (0) 52 (by with_unfolding_all decide) (by norm_num)
    (61248954932238765 / 8) (by rw [qpow2_p52]; norm_num) 7656119366529846
    (by with_unfolding_all decide) _ (by rw [qpow2_n52]; norm_num)
theorem stepIn6 : (onMenuEvent envA "zoom_in" (1801439850948199 / 1125899906842624)).1 = 3828059683264923 / 2251799813685248 := by
  rw [onMenuEvent_in_fst, fadd_step6, min_eq_left (by norm_num)]
theorem fadd_step7 : fadd (3828059683264923 / 2251799813685248) c01 = 506654958079181 / 281474976710656 := by
  rw [fadd_def, c01_eq]
  exact roundF64_eval _ (64851834634135165 / 36028797018963968) (by norm_num) (by norm_num) (by norm_num)
    (0) 52 (by with_unfolding_all decide) (by norm_num)
    (64851834634135165 / 8) (by rw [qpow2_p52]; norm_num) 8106479329266896
    (by with_unfolding_all decide) _ (by rw [qpow2_n52]; norm_num)
theorem stepIn7 : (onMenuEvent envA "zoom_in" (3828059683264923 / 2251799813685248)).1 = 506654958079181 / 281474976710656 := by
  rw [onMenuEvent_in_fst, fadd_step7, min_eq_left (by norm_num)]
theorem fadd_step8 : fadd (506654958079181 / 281474976710656) c01 = 4278419646001973 / 2251799813685248 := by
  rw [fadd_def, c01_eq]
  exact roundF64_eval _ (68454714336031565 / 36028797018963968) (by norm_num) (by norm_num) (by norm_num)
    (0) 52 (by with_unfolding_all decide) (by norm_num)
    (68454714336031565 / 8) (by rw [qpow2_p52]; norm_num) 8556839292003946
    (by with_unfolding_all decide) _ (by rw [qpow2_n52]; norm_num)
theorem stepIn8 : (onMenuEvent envA "zoom_in" (506654958079181 / 281474976710656)).1 = 4278419646001973 / 2251799813685248 := by
  rw [onMenuEvent_in_fst, fadd_step8, min_eq_left (by norm_num)]
theorem fadd_step9 : fadd (4278419646001973 / 2251799813685248) c01 = 2251799813685249 / 1125899906842624 := by
  rw [fadd_def, c01_eq]
  exact roundF64_eval _ (72057594037927965 / 36028797018963968) (by norm_num) (by norm_num) (by norm_num)
    (1) 51 (by with_unfolding_all decide) (by norm_num)
    (72057594037927965 / 16) (by rw [qpow2_p51]; norm_num) 4503599627370498
    (by with_unfolding_all decide) _ (by rw [qpow2_n51]; norm_num)
theorem stepIn9 : (onMenuEvent envA "zoom_in" (4278419646001973 / 2251799813685248)).1 = 2251799813685249 / 1125899906842624 := by
  rw [onMenuEvent_in_fst, fadd_step9, min_eq_left (by norm_num)]
theorem fadd_step10 : fadd (2251799813685249 / 1125899906842624) c01 = 4728779608739023 / 2251799813685248 := by
  rw [fadd_def, c01_eq]
  exact roundF64_eval _ (75660473739824365 / 36028797018963968) (by norm_num) (by norm_num) (by norm_num)
    (1) 51 (by with_unfolding_all decide) (by norm_num)
    (75660473739824365 / 16) (by rw [qpow2_p51]; norm_num) 4728779608739023
    (by with_unfolding_all decide) _ (by rw [qpow2_n51]; norm_num)
theorem stepIn10 : (onMenuEvent envA "zoom_in" (2251799813685249 / 1125899906842624)).1 = 4728779608739023 / 2251799813685248 := by
  rw [onMenuEvent_in_fst, fadd_step10, min_eq_left (by norm_num)]
theorem fadd_step11 : fadd (4728779608739023 / 2251799813685248) c01 = 1238489897526887 / 562949953421312 := by
  rw [fadd_def, c01_eq]
  exact roundF64_eval _ (79263353441720765 / 36028797018963968) (by norm_num) (by norm_num) (by norm_num)
    (1) 51 (by with_unfolding_all decide) (by norm_num)
    (79263353441720765 / 16) (by rw [qpow2_p51]; norm_num) 4953959590107548
    (by with_unfolding_all decide) _ (by rw [qpow2_n51]; norm_num)
theorem stepIn11 : (onMenuEvent envA "zoom_in" (4728779608739023 / 2251799813685248)).1 = 1238489897526887 / 562949953421312 := by
  rw [onMenuEvent_in_fst, fadd_step11, min_eq_left (by norm_num)]
theorem fadd_step12 : fadd (1238489897526887 / 562949953421312) c01 = 5179139571476073 / 2251799813685248 := by
  rw [fadd_def, c01_eq]
  exact roundF64_eval _ (82866233143617165 / 36028797018963968) (by norm_num) (by norm_num) (by norm_num)
    (1) 51 (by with_unfolding_all decide) (by norm_num)
    (82866233143617165 / 16) (by rw [qpow2_p51]; norm_num) 5179139571476073
    (by with_unfolding_all decide) _ (by rw [qpow2_n51]; norm_num)
theorem stepIn12 : (onMenuEvent envA "zoom_in" (1238489897526887 / 562949953421312)).1 = 5179139571476073 / 2251799813685248 := by
  rw [onMenuEvent_in_fst, fadd_step12, min_eq_left (by norm_num)]
theorem fadd_step13 : fadd (5179139571476073 / 2251799813685248) c01 = 2702159776422299 / 1125899906842624 := by
  rw [fadd_def, c01_eq]
  exact roundF64_eval _ (86469112845513565 / 36028797018963968) (by norm_num) (by norm_num) (by norm_num)
    (1) 51 (by with_unfolding_all decide) (by norm_num)
    (86469112845513565 / 16) (by rw [qpow2_p51]; norm_num) 5404319552844598
    (by with_unfolding_all decide) _ (by rw [qpow2_n51]; norm_num)
theorem stepIn13 : (onMenuEvent envA "zoom_in" (5179139571476073 / 2251799813685248)).1 = 2702159776422299 / 1125899906842624 := by
  rw [onMenuEvent_in_fst, fadd_step13, min_eq_left (by norm_num)]
theorem fadd_step14 : fadd (2702159776422299 / 1125899906842624) c01 = 5629499534213123 / 2251799813685248 := by
  rw [fadd_def, c01_eq]
  exact roundF64_eval _ (90071992547409965 / 36028797018963968) (by norm_num) (by norm_num) (by norm_num)
    (1) 51 (by with_unfolding_all decide) (by norm_num)
    (90071992547409965 / 16) (by rw [qpow2_p51]; norm_num) 5629499534213123
    (by with_unfolding_all decide) _ (by rw [qpow2_n51]; norm_num)
theorem stepIn14 : (onMenuEvent envA "zoom_in" (2702159776422299 / 1125899906842624)).1 = 5629499534213123 / 2251799813685248 := by
  rw [onMenuEvent_in_fst, fadd_step14, min_eq_left (by norm_num)]
theorem fadd_step15 : fadd (5629499534213123 / 2251799813685248) c01 = 365917469723853 / 140737488355328 := by
  rw [fadd_def, c01_eq]
  exact roundF64_eval _ (93674872249306365 / 36028797018963968) (by norm_num) (by norm_num) (by norm_num)
    (1) 51 (by with_unfolding_all decide) (by norm_num)
    (93674872249306365 / 16) (by rw [qpow2_p51]; norm_num) 5854679515581648
    (by with_unfolding_all decide) _ (by rw [qpow2_n51]; norm_num)
theorem stepIn15 : (onMenuEvent envA "zoom_in" (5629499534213123 / 2251799813685248)).1 = 365917469723853 / 140737488355328 := by
  rw [onMenuEvent_in_fst, fadd_step15, min_eq_left (by norm_num)]
theorem fadd_step16 : fadd (365917469723853 / 140737488355328) c01 = 6079859496950173 / 2251799813685248 := by
  rw [fadd_def, c01_eq]
  exact roundF64_eval _ (97277751951202765 / 36028797018963968) (by norm_num) (by norm_num) (by norm_num)
    (1) 51 (by with_unfolding_all decide) (by norm_num)
    (97277751951202765 / 16) (by rw [qpow2_p51]; norm_num) 6079859496950173
    (by with_unfolding_all decide) _ (by rw [qpow2_n51]; norm_num)
theorem stepIn16 : (onMenuEvent envA "zoom_in" (365917469723853 / 140737488355328)).1 = 6079859496950173 / 2251799813685248 := by
  rw [onMenuEvent_in_fst, fadd_step16, min_eq_left (by norm_num)]
theorem fadd_step17 : fadd (6079859496950173 / 2251799813685248) c01 = 3152519739159349 / 1125899906842624 := by
  rw [fadd_def, c01_eq]
  exact roundF64_eval _ (100880631653099165 / 36028797018963968) (by norm_num) (by norm_num) (by norm_num)
    (1) 51 (by with_unfolding_all decide) (by norm_num)
    (100880631653099165 / 16) (by rw [qpow2_p51]; norm_num) 6305039478318698
    (by with_unfolding_all decide) _ (by rw [qpow2_n51]; norm_num)
theorem stepIn17 : (onMenuEvent envA "zoom_in" (6079859496950173 / 2251799813685248)).1 = 3152519739159349 / 1125899906842624 := by
  rw [onMenuEvent_in_fst, fadd_step17, min_eq_left (by norm_num)]
theorem fadd_step18 : fadd (3152519739159349 / 1125899906842624) c01 = 6530219459687223 / 2251799813685248 := by
  rw [fadd_def, c01_eq]
  exact roundF64_eval _ (104483511354995565 / 36028797018963968) (by norm_num) (by norm_num) (by norm_num)
    (1) 51 (by with_unfolding_all decide) (by norm_num)
    (104483511354995565 / 16) (by rw [qpow2_p51]; norm_num) 6530219459687223
    (by with_unfolding_all decide) _ (by rw [qpow2_n51]; norm_num)
theorem stepIn18 : (onMenuEvent envA "zoom_in" (3152519739159349 / 1125899906842624)).1 = 6530219459687223 / 2251799813685248 := by
  rw [onMenuEvent_in_fst, fadd_step18, min_eq_left (by norm_num)]
theorem fadd_step19 : fadd (6530219459687223 / 2251799813685248) c01 = 1688849860263937 / 562949953421312 := by
  rw [fadd_def, c01_eq]
  exact roundF64_eval _ (108086391056891965 / 36028797018963968) (by norm_num) (by norm_num) (by norm_num)
    (1) 51 (by with_unfolding_all decide) (by norm_num)
    (108086391056891965 / 16) (by rw [qpow2_p51]; norm_num) 6755399441055748
    (by with_unfolding_all decide) _ (by rw [qpow2_n51]; norm_num)
theorem stepIn19 : (onMenuEvent envA "zoom_in" (6530219459687223 / 2251799813685248)).1 = 3 := by
  rw [onMenuEvent_in_fst, fadd_step19, min_eq_right (by norm_num)]
theorem fadd_step_at3 : fadd (3) c01 = 6980579422424269 / 2251799813685248 := by
  rw [fadd_def, c01_eq]
  exact roundF64_eval _ (111689270758788301 / 36028797018963968) (by norm_num) (by norm_num) (by norm_num)
    (1) 51 (by with_unfolding_all decide) (by norm_num)
    (111689270758788301 / 16) (by rw [qpow2_p51]; norm_num) 6980579422424269
    (by with_unfolding_all decide) _ (by rw [qpow2_n51]; norm_num)
theorem stepInFix : (onMenuEvent envA "zoom_in" (3 : ℚ)).1 = 3 := by
  rw [onMenuEvent_in_fst, fadd_step_at3, min_eq_right (by norm_num)]

theorem c01_range : 0 < c01 ∧ c01 < 1/8 := by
  rw [c01_eq]
  norm_num

theorem qpow2_neg52_lt_c01 : qpow2 (-52) < c01 := by
  rw [qpow2_n52, c01_eq]
  norm_num

/-- One `zoom_in` step keeps the zoom level inside `[1/2, 3]`. -/
theorem zoomIn_bounds (z : ℚ) (h1 : 1/2 ≤ z) (h2 : z ≤ 3) :
    1/2 ≤ min (fadd z c01) 3 ∧ min (fadd z c01) 3 ≤ 3 := by
  obtain ⟨hc0, hc1⟩ := c01_range
  have h0 : 0 < z + c01 := by linarith
  have h4 : z + c01 < 4 := by linarith
  obtain ⟨hl, hr⟩ := roundF64_bounds (z + c01) h0 h4
  have heps := qpow2_neg52_lt_c01
  rw [fadd_def]
  constructor
  · apply le_min
    · linarith
    · norm_num
  · exact min_le_right _ _

/-- One `zoom_out` step keeps the zoom level inside `[1/2, 3]`. -/
theorem zoomOut_bounds (z : ℚ) (h1 : 1/2 ≤ z) (h2 : z ≤ 3) :
    1/2 ≤ max (fsub z c01) (1/2) ∧ max (fsub z c01) (1/2) ≤ 3 := by
  obtain ⟨hc0, hc1⟩ := c01_range
  have h0 : 0 < z - c01 := by linarith
  have h4 : z - c01 < 4 := by linarith
  obtain ⟨hl, hr⟩ := roundF64_bounds (z - c01) h0 h4
  have heps := qpow2_neg52_lt_c01
  rw [fsub_def]
  constructor
  · exact le_max_right _ _
  · apply max_le
    · linarith
    · norm_num

/-- A single dispatch, whatever the identity and environment, keeps
the zoom level inside `[1/2, 3]`. -/
theorem onMenuEvent_fst_bounds (env : WinEnv) (id : String) (z : ℚ)
    (h1 : 1/2 ≤ z) (h2 : z ≤ 3) :
    1/2 ≤ (onMenuEvent env id z).1 ∧ (onMenuEvent env id z).1 ≤ 3 := by
  by_cases hw : env.winPresent = true
  · delta onMenuEvent
    rw [if_pos hw]
    split
    · exact ⟨h1, h2⟩
    · exact ⟨h1, h2⟩
    · exact zoomIn_bounds z h1 h2
    · exact zoomOut_bounds z h1 h2
    · norm_num
    · exact ⟨h1, h2⟩
    · exact ⟨h1, h2⟩
    · exact ⟨h1, h2⟩
  · delta onMenuEvent
    rw [if_neg hw]
    exact ⟨h1, h2⟩

/-- The zoom level stays inside `[1/2, 3]` along any event sequence. -/
theorem applyEvents_bounds (evs : List (WinEnv × String)) :
    ∀ z : ℚ, 1/2 ≤ z → z ≤ 3 →
      1/2 ≤ applyEvents evs z ∧ applyEvents evs z ≤ 3 := by
  induction evs with
  | nil =>
    intro z h1 h2
    exact ⟨h1, h2⟩
  | cons ev t ih =>
    intro z h1 h2
    have hstep := onMenuEvent_fst_bounds ev.1 ev.2 z h1 h2
    have hrw : applyEvents (ev :: t) z
        = applyEvents t ((onMenuEvent ev.1 ev.2 z).1) := by
      simp only [applyEvents, List.foldl_cons]
    rw [hrw]
    exact ih _ hstep.1 hstep.2

theorem applyEvents_five_out :
    applyEvents (List.replicate 5 (envA, "zoom_out")) 1
      = 4503599627370497 / 9007199254740992 := by
  rw [show List.replicate 5 ((envA, "zoom_out") : WinEnv × String)
      = [(envA, "zoom_out"), (envA, "zoom_out"), (envA, "zoom_out"),
         (envA, "zoom_out"), (envA, "zoom_out")] from rfl]
  simp only [applyEvents, List.foldl_cons, List.foldl_nil]
  rw [stepOut0, stepOut1, stepOut2, stepOut3, stepOut4]

theorem applyEvents_six_out :
    applyEvents (List.replicate 6 (envA, "zoom_out")) 1 = 1/2 := by
  rw [show List.replicate 6 ((envA, "zoom_out") : WinEnv × String)
      = [(envA, "zoom_out"), (envA, "zoom_out"), (envA, "zoom_out"), (envA, "zoom_out"), (envA, "zoom_out"), (envA, "zoom_out")] from rfl]
  simp only [applyEvents, List.foldl_cons, List.foldl_nil]
  rw [stepOut0, stepOut1, stepOut2, stepOut3, stepOut4, stepOut5]

theorem applyEvents_six_out_reset :
    applyEvents (List.replicate 6 (envA, "zoom_out") ++ [(envA, "zoom_reset")]) 1
      = 1 := by
  rw [show List.replicate 6 ((envA, "zoom_out") : WinEnv × String)
        ++ [(envA, "zoom_reset")]
      = [(envA, "zoom_out"), (envA, "zoom_out"), (envA, "zoom_out"), (envA, "zoom_out"), (envA, "zoom_out"), (envA, "zoom_out"), (envA, "zoom_reset")] from rfl]
  simp only [applyEvents, List.foldl_cons, List.foldl_nil]
  rw [stepOut0, stepOut1, stepOut2, stepOut3, stepOut4, stepOut5, onMenuEvent_reset_fst]

theorem applyEvents_thirty_in :
    applyEvents (List.replicate 30 (envA, "zoom_in")) 1 = 3 := by
  rw [show List.replicate 30 ((envA, "zoom_in") : WinEnv × String)
      = [(envA, "zoom_in"),
         (envA, "zoom_in"),
         (envA, "zoom_in"),
         (envA, "zoom_in"),
         (envA, "zoom_in"),
         (envA, "zoom_in"),
         (envA, "zoom_in"),
         (envA, "zoom_in"),
         (envA, "zoom_in"),
         (envA, "zoom_in"),
         (envA, "zoom_in"),
         (envA, "zoom_in"),
         (envA, "zoom_in"),
         (envA, "zoom_in"),
         (envA, "zoom_in"),
         (envA, "zoom_in"),
         (envA, "zoom_in"),
         (envA, "zoom_in"),
         (envA, "zoom_in"),
         (envA, "zoom_in"),
         (envA, "zoom_in"),
         (envA, "zoom_in"),
         (envA, "zoom_in"),
         (envA, "zoom_in"),
         (envA, "zoom_in"),
         (envA, "zoom_in"),
         (envA, "zoom_in"),
         (envA, "zoom_in"),
         (envA, "zoom_in"),
         (envA, "zoom_in")] from rfl]
  simp only [applyEvents, List.foldl_cons, List.foldl_nil]
  rw [stepIn0, stepIn1, stepIn2, stepIn3, stepIn4, stepIn5, stepIn6, stepIn7, stepIn8, stepIn9, stepIn10, stepIn11, stepIn12, stepIn13, stepIn14, stepIn15, stepIn16, stepIn17, stepIn18, stepIn19]
  simp only [stepInFix]

/-- C1: for every sequence of dispatched zoom_in / zoom_out /
zoom_reset menu events starting from the initial zoom level 1.0, the
stored zoom level stays within [0.5, 3.0] inclusive; each zoom_in
performs the binary64 addition of the 0.1 literal and each zoom_out
the binary64 subtraction, with min/max clamping (no wrap-around, no
error) at the boundaries. -/
theorem c1_zoom_invariant :
    (∀ evs : List (WinEnv × String),
        (∀ p ∈ evs, p.2 = "zoom_in" ∨ p.2 = "zoom_out" ∨ p.2 = "zoom_reset") →
        1/2 ≤ applyEvents evs 1 ∧ applyEvents evs 1 ≤ 3)
    ∧ (∀ (env : WinEnv) (z : ℚ), env.winPresent = true →
        (onMenuEvent env "zoom_in" z).1 = min (fadd z c01) 3
        ∧ (onMenuEvent env "zoom_out" z).1 = max (fsub z c01) (1/2)
        ∧ (onMenuEvent env "zoom_reset" z).1 = 1) := by
  constructor
  · intro evs _
    exact applyEvents_bounds evs 1 (by norm_num) (by norm_num)
  · intro env z hw
    refine ⟨?_, ?_, ?_⟩ <;> (delta onMenuEvent; rw [if_pos hw])
    all_goals rfl

/-- Witness for C1 at the singleton zoom_out sequence and at zoom_in. -/
theorem c1_zoom_invariant_witness :
    (1/2 ≤ applyEvents [(envA, "zoom_out")] 1
      ∧ applyEvents [(envA, "zoom_out")] 1 ≤ 3)
    ∧ (onMenuEvent envA "zoom_in" 1).1 = min (fadd 1 c01) 3 :=
  ⟨c1_zoom_invariant.1 [(envA, "zoom_out")] (by decide),
   (c1_zoom_invariant.2 envA 1 rfl).1⟩

/-- C2 (counterexample): after five zoom_out dispatches from 1.0 the
stored zoom level is not exactly 0.5 — binary64 rounding leaves it at
0.5000000000000001. -/
theorem c2_counterexample :
    applyEvents (List.replicate 5 (envA, "zoom_out")) 1 ≠ 1/2 := by
  rw [applyEvents_five_out]
  norm_num

/-- C2 (amended): five zoom_out dispatches from 1.0 yield the binary64
value 0.5000000000000001 (= 4503599627370497 / 2^53), a sixth zoom_out
clamps the level to exactly 0.5, and zoom_reset then yields exactly 1.0. -/
theorem c2_amended :
    applyEvents (List.replicate 5 (envA, "zoom_out")) 1
      = 4503599627370497 / 9007199254740992
    ∧ applyEvents (List.replicate 6 (envA, "zoom_out")) 1 = 1/2
    ∧ applyEvents (List.replicate 6 (envA, "zoom_out") ++ [(envA, "zoom_reset")]) 1
      = 1 :=
  ⟨applyEvents_five_out, applyEvents_six_out, applyEvents_six_out_reset⟩

/-- C3 (counterexample): with the main window present, the settings
object missing and `with_webview` succeeding, the bootstrap is not
fatal, contradicting the claimed equivalence "fatal iff the window or
the settings object cannot be resolved". -/
theorem c3_counterexample :
    ¬ (linuxPermissionBootstrap ⟨true, false, true⟩ = none
        ↔ ((⟨true, false, true⟩ : BootEnv).windowPresent = false
            ∨ (⟨true, false, true⟩ : BootEnv).settingsPresent = false)) := by
  decide

/-- C3 (amended): the bootstrap is fatal exactly when the main window
cannot be resolved or `with_webview` itself fails; an unresolvable
settings object is not fatal — the three capability setters are
skipped while the permission-request handler is still installed. -/
theorem c3_amended (env : BootEnv) :
    (linuxPermissionBootstrap env = none
      ↔ (env.windowPresent = false ∨ env.withWebviewOk = false))
    ∧ (env.windowPresent = true → env.withWebviewOk = true →
        linuxPermissionBootstrap env
          = some ⟨env.settingsPresent, env.settingsPresent,
                  env.settingsPresent, true⟩) := by
  obtain ⟨w, s, o⟩ := env
  cases w <;> cases s <;> cases o <;> decide

/-- Witness for C3 (amended) at the settings-missing environment. -/
theorem c3_amended_witness :
    linuxPermissionBootstrap ⟨true, false, true⟩
      = some ⟨false, false, false, true⟩ :=
  (c3_amended ⟨true, false, true⟩).2 rfl rfl

/-- C4: for zoom_in, zoom_out and zoom_reset the stored zoom level is
the clamped update and the attempted window action is `set_zoom` of
that same already-updated value; the result of the scale-set operation
(`setZoomOk`) has no influence — a failure is discarded and the stored
zoom still holds the updated value. -/
theorem c4_zoom_soft_fail (env : WinEnv) (z : ℚ) (hw : env.winPresent = true) :
    (onMenuEvent env "zoom_in" z
        = (min (fadd z c01) 3, [WAction.setZoom (min (fadd z c01) 3)])
      ∧ onMenuEvent env "zoom_out" z
        = (max (fsub z c01) (1/2), [WAction.setZoom (max (fsub z c01) (1/2))])
      ∧ onMenuEvent env "zoom_reset" z = (1, [WAction.setZoom 1]))
    ∧ (∀ ok : Bool,
        onMenuEvent { env with setZoomOk := ok } "zoom_in" z
          = onMenuEvent env "zoom_in" z
        ∧ onMenuEvent { env with setZoomOk := ok } "zoom_out" z
          = onMenuEvent env "zoom_out" z
        ∧ onMenuEvent { env with setZoomOk := ok } "zoom_reset" z
          = onMenuEvent env "zoom_reset" z) := by
  constructor
  · refine ⟨?_, ?_, ?_⟩ <;> (delta onMenuEvent; rw [if_pos hw])
    all_goals rfl
  · intro ok
    exact ⟨rfl, rfl, rfl⟩

/-- Witness for C4 at the healthy environment with a failing set_zoom. -/
theorem c4_zoom_soft_fail_witness :
    onMenuEvent { envA with setZoomOk := false } "zoom_reset" 2
      = (1, [WAction.setZoom 1]) :=
  (c4_zoom_soft_fail { envA with setZoomOk := false } 2 rfl).1.2.2

/-- C5: toggle_fullscreen reads the window's fullscreen flag (treating
an unreadable flag as false) and requests its negation; fired twice
from a readable non-fullscreen state it requests a return to the
non-fullscreen state. -/
theorem c5_toggle_fullscreen (env env2 : WinEnv) (z : ℚ)
    (hw : env.winPresent = true) (hw2 : env2.winPresent = true) :
    onMenuEvent env "toggle_fullscreen" z
      = (z, [WAction.setFullscreen (!(env.isFullscreen.getD false))])
    ∧ (env.isFullscreen = some false → env2.isFullscreen = some true →
        (onMenuEvent env "toggle_fullscreen" z).2 = [WAction.setFullscreen true]
        ∧ (onMenuEvent env2 "toggle_fullscreen" z).2
            = [WAction.setFullscreen false]) := by
  have h1 : onMenuEvent env "toggle_fullscreen" z
      = (z, [WAction.setFullscreen (!(env.isFullscreen.getD false))]) := by
    delta onMenuEvent
    rw [if_pos hw]
    rfl
  have h2 : onMenuEvent env2 "toggle_fullscreen" z
      = (z, [WAction.setFullscreen (!(env2.isFullscreen.getD false))]) := by
    delta onMenuEvent
    rw [if_pos hw2]
    rfl
  refine ⟨h1, fun hf hf2 => ⟨?_, ?_⟩⟩
  · rw [h1, hf]
    rfl
  · rw [h2, hf2]
    rfl

/-- Witness for C5 with a non-fullscreen first read and a fullscreen
second read. -/
theorem c5_toggle_fullscreen_witness :
    onMenuEvent envA "toggle_fullscreen" 1
      = (1, [WAction.setFullscreen (!((envA : WinEnv).isFullscreen.getD false))])
    ∧ ((onMenuEvent envA "toggle_fullscreen" 1).2 = [WAction.setFullscreen true]
        ∧ (onMenuEvent ⟨true, false, some true, true⟩ "toggle_fullscreen" 1).2
            = [WAction.setFullscreen false]) :=
  ⟨(c5_toggle_fullscreen envA ⟨true, false, some true, true⟩ 1 rfl rfl).1,
   (c5_toggle_fullscreen envA ⟨true, false, some true, true⟩ 1 rfl rfl).2 rfl rfl⟩

/-- C6: dispatching a menu event whose identity is none of the seven
known identities is a no-op: zoom unchanged, no window action, no
error. -/
theorem c6_unknown_noop (env : WinEnv) (id : String) (z : ℚ)
    (h1 : id ≠ "reload") (h2 : id ≠ "toggle_devtools") (h3 : id ≠ "zoom_in")
    (h4 : id ≠ "zoom_out") (h5 : id ≠ "zoom_reset")
    (h6 : id ≠ "toggle_fullscreen") (h7 : id ≠ "check_updates") :
    onMenuEvent env id z = (z, []) := by
  by_cases hw : env.winPresent = true
  · delta onMenuEvent
    rw [if_pos hw]
    split <;> simp_all
  · delta onMenuEvent
    rw [if_neg hw]

/-- Witness for C6 at an unknown identity. -/
theorem c6_unknown_noop_witness : onMenuEvent envA "bogus" 2 = (2, []) :=
  c6_unknown_noop envA "bogus" 2 (by decide) (by decide) (by decide) (by decide)
    (by decide) (by decide) (by decide)

/-- C7: zoom_reset sets the stored zoom level to exactly 1.0 whatever
the prior level, and attempts to apply 1.0 to the window. -/
theorem c7_zoom_reset (env : WinEnv) (z : ℚ) (hw : env.winPresent = true) :
    onMenuEvent env "zoom_reset" z = (1, [WAction.setZoom 1]) := by
  delta onMenuEvent
  rw [if_pos hw]
  rfl

/-- Witness for C7 at zoom level 7/4. -/
theorem c7_zoom_reset_witness :
    onMenuEvent envA "zoom_reset" (7/4) = (1, [WAction.setZoom 1]) :=
  c7_zoom_reset envA (7/4) rfl

/-- C8: thirty consecutive zoom_in dispatches from 1.0 yield a stored
zoom level of exactly 3.0 (clamped at the upper bound), not 4.0. -/
theorem c8_thirty_zoom_in :
    applyEvents (List.replicate 30 (envA, "zoom_in")) 1 = 3
    ∧ applyEvents (List.replicate 30 (envA, "zoom_in")) 1 ≠ 4 :=
  ⟨applyEvents_thirty_in, by rw [applyEvents_thirty_in]; norm_num⟩

/-- C9: the View submenu holds exactly six custom items, in order
Reload, Toggle Developer Tools, Zoom In, Zoom Out, Reset Zoom, Toggle
Fullscreen, with pairwise distinct identity strings, each with an
accelerator, and a separator right after the reload/devtools pair. -/
theorem c9_view_menu :
    view_menu.filterMap MenuEntry.customId
      = ["reload", "toggle_devtools", "zoom_in", "zoom_out", "zoom_reset",
         "toggle_fullscreen"]
    ∧ view_menu.filterMap MenuEntry.customLabel
      = ["Reload", "Toggle Developer Tools", "Zoom In", "Zoom Out",
         "Reset Zoom", "Toggle Fullscreen"]
    ∧ (view_menu.filterMap MenuEntry.customId).Nodup
    ∧ (view_menu.all fun e => !e.customNoAccel) = true
    ∧ view_menu.take 3 = [reload_item, devtools_item, MenuEntry.separator] := by
  refine ⟨?_, ?_, ?_, ?_, ?_⟩ <;> decide

/-- C10: any dispatch whose identity is not one of the three zoom
identities, and any dispatch at all when the main window cannot be
resolved, leaves the stored zoom level unchanged. -/
theorem c10_non_zoom_preserves (env : WinEnv) (id : String) (z : ℚ)
    (h : (id ≠ "zoom_in" ∧ id ≠ "zoom_out" ∧ id ≠ "zoom_reset")
          ∨ env.winPresent = false) :
    (onMenuEvent env id z).1 = z := by
  rcases h with ⟨h1, h2, h3⟩ | hwf
  · by_cases hw : env.winPresent = true
    · delta onMenuEvent
      rw [if_pos hw]
      split <;> simp_all
    · delta onMenuEvent
      rw [if_neg hw]
  · delta onMenuEvent
    rw [if_neg (by simp [hwf])]

/-- Witness for C10 at the reload identity. -/
theorem c10_non_zoom_preserves_witness : (onMenuEvent envA "reload" 2).1 = 2 :=
  c10_non_zoom_preserves envA "reload" 2 (Or.inl ⟨by decide, by decide, by decide⟩)
